import Mathlib

/-
Formal model of src/gold_loan_llm_app3.py.

The program loads an Excel sheet into a pandas DataFrame held in Streamlit
session state, asks the Gemini API for a Python expression answering a user
question, evaluates that expression with
  eval(python_code, \x7b "__builtins__": None \x7d, \x7b "df": st.session_state.df, "pd": pd \x7d)
and classifies the result (lines 206-233 of the source).

The embedding below models:
  - the dataset as an ordered list of (column name, dtype) pairs plus rows of
    typed cells (pandas DataFrame at the granularity the program uses);
  - the evaluated expression language as an AST fragment of Python expressions
    covering the operations the generated snippets use (name references,
    attribute access, zero and one argument calls, subscripts, equality and
    ordering comparison).  Python name-resolution semantics for the eval call
    are modelled exactly: the locals dict binds df and pd, the globals dict
    binds __builtins__ to None, and every other name raises NameError.
    DataFrame.pop is the modelled in-place mutator (pandas mutates the shared
    object); evaluation therefore threads the session dataframe as explicit
    state and returns it even when the evaluation raises.
  - call_gemini_api (lines 44-72) as a function of the transport outcome,
    with the four except-clauses, using the httpx exception hierarchy:
    httpx.HTTPStatusError (raised by raise_for_status for a non-2xx status)
    subclasses httpx.HTTPError directly, not httpx.RequestError, so it is
    caught by the final catch-all clause, not by the RequestError clause.
  - the result classifier (lines 212-224): pandas DataFrame.empty is true
    when either axis has length zero, and len(df) is the row count.
  - the Streamlit control flow: the dataset load block (lines 138-149), the
    interface guard (line 154), the empty-question guard (lines 161-162 and
    232-233) and the python_code truthiness guard (line 206).

Granularity notes: unmodelled Python corners (keyword arguments, float
arithmetic, bool/int cross-type equality, attributes other than pop and sum)
are outside the fragment; no theorem below depends on them.
-/

namespace GoldLoan

/-- Pandas dtypes as printed by the schema summary (line 167 of the source). -/
inductive DType where
  | int64
  | float64
  | object
  | bool
deriving DecidableEq

def dtypeRepr : DType → String
  | .int64 => "int64"
  | .float64 => "float64"
  | .object => "object"
  | .bool => "bool"

/-- One cell of the table: the elementary value kinds the fragment uses. -/
inductive Cell where
  | cInt (n : Int)
  | cStr (s : String)
  | cBool (b : Bool)
deriving DecidableEq

/-- The in-memory table: ordered named typed columns plus rows of cells. -/
structure DataFrame where
  cols : List (String × DType)
  rows : List (List Cell)
deriving DecidableEq

/-- pandas DataFrame.empty: true when any axis has length zero. -/
def DataFrame.isEmpty (d : DataFrame) : Bool :=
  d.rows.length == 0 || d.cols.length == 0

/-- Index of a column name in the column list (pandas column lookup). -/
def DataFrame.colIdx (d : DataFrame) (s : String) : Option Nat :=
  d.cols.findIdx? (fun c => decide (c.1 = s))

/-- pandas DataFrame.pop(s): returns the column s and the frame with s
removed in place; none models the KeyError when s is not a column. -/
def DataFrame.popCol (d : DataFrame) (s : String) : Option (List Cell × DataFrame) :=
  match d.colIdx s with
  | none => none
  | some j =>
      some (d.rows.map (fun r => r.getD j (.cInt 0)),
            ⟨d.cols.eraseIdx j, d.rows.map (fun r => r.eraseIdx j)⟩)

/-- Methods of the evaluation fragment: pop mutates a frame in place,
sum aggregates a column. -/
inductive MethodKind where
  | pop
  | sum
deriving DecidableEq

/-- Python values produced by evaluating the generated expression.
vSessionDF is the object bound to the name df: local_vars aliases
st.session_state.df, so operations on it read and write the session state.
vDF is a fresh derived frame (for example a filtered copy). -/
inductive PyVal where
  | vNone
  | vInt (n : Int)
  | vStr (s : String)
  | vBool (b : Bool)
  | vPd
  | vSessionDF
  | vDF (d : DataFrame)
  | vSeries (cells : List Cell)
  | vMethod (m : MethodKind) (recv : PyVal)
deriving DecidableEq

/-- Python exceptions raised during evaluation of the generated code; all are
caught by the except clause at line 226 of the source. -/
inductive EvalErr where
  | nameError (s : String)
  | keyError (s : String)
  | attributeError (s : String)
  | typeError
  | syntaxError
deriving DecidableEq

/-- The Python expression fragment the generated snippets use. -/
inductive Expr where
  | litInt (n : Int)
  | litStr (s : String)
  | litBool (b : Bool)
  | litNone
  | name (s : String)
  | attr (e : Expr) (f : String)
  | subscript (e : Expr) (i : Expr)
  | call0 (f : Expr)
  | call1 (f : Expr) (a : Expr)
  | binEq (a : Expr) (b : Expr)
  | binLt (a : Expr) (b : Expr)
deriving DecidableEq

/-- Evaluation result: the raised-or-returned value together with the session
dataframe after evaluation (mutations survive even when an exception is
raised later in the expression). -/
abbrev ExRes := Except EvalErr PyVal × DataFrame

/-- Sequencing with Python exception propagation. -/
def bindE (r : ExRes) (k : PyVal → DataFrame → ExRes) : ExRes :=
  match r with
  | (.error e, d) => (.error e, d)
  | (.ok v, d) => k v d

/-- Name resolution of eval(code, globalsDict, localsDict) at line 210:
locals bind df and pd, globals bind __builtins__ to None, every other
name raises NameError. -/
def lookupName (s : String) (d : DataFrame) : ExRes :=
  if s = "df" then (.ok .vSessionDF, d)
  else if s = "pd" then (.ok .vPd, d)
  else if s = "__builtins__" then (.ok .vNone, d)
  else (.error (.nameError s), d)

/-- Attribute access of the fragment: pop on a frame, sum on a series;
other attributes are outside the fragment. -/
def attrOf (v : PyVal) (f : String) (d : DataFrame) : ExRes :=
  match v with
  | .vSessionDF =>
      if f = "pop" then (.ok (.vMethod .pop .vSessionDF), d)
      else (.error (.attributeError f), d)
  | .vDF d0 =>
      if f = "pop" then (.ok (.vMethod .pop (.vDF d0)), d)
      else (.error (.attributeError f), d)
  | .vSeries cs =>
      if f = "sum" then (.ok (.vMethod .sum (.vSeries cs)), d)
      else (.error (.attributeError f), d)
  | _ => (.error (.attributeError f), d)

/-- Scalar values usable as cells in comparisons. -/
def toCellV : PyVal → Option Cell
  | .vInt n => some (.cInt n)
  | .vStr s => some (.cStr s)
  | .vBool b => some (.cBool b)
  | _ => none

/-- A series usable as a boolean row mask. -/
def asBools : List Cell → Option (List Bool)
  | [] => some []
  | .cBool b :: rest => (asBools rest).map (fun bs => b :: bs)
  | _ => none

/-- A series of integers. -/
def intsOf : List Cell → Option (List Int)
  | [] => some []
  | .cInt n :: rest => (intsOf rest).map (fun ns => n :: ns)
  | _ => none

/-- Keep the rows whose mask entry is true (pandas boolean indexing). -/
def filterRows (rows : List (List Cell)) (mask : List Bool) : List (List Cell) :=
  (rows.zip mask).filterMap (fun p => if p.2 then some p.1 else none)

/-- Subscription applied to a resolved frame: a string selects a column as a
series, a boolean series of matching length filters the rows into a fresh
frame, anything else raises. -/
def subFrame (fr : DataFrame) (vi : PyVal) (d : DataFrame) : ExRes :=
  match vi with
  | .vStr s =>
      match fr.colIdx s with
      | some j => (.ok (.vSeries (fr.rows.map (fun r => r.getD j (.cInt 0)))), d)
      | none => (.error (.keyError s), d)
  | .vSeries cs =>
      match asBools cs with
      | some bs =>
          if bs.length = fr.rows.length
          then (.ok (.vDF ⟨fr.cols, filterRows fr.rows bs⟩), d)
          else (.error .typeError, d)
      | none => (.error .typeError, d)
  | _ => (.error .typeError, d)

/-- Subscription on a value: vSessionDF resolves to the session frame at
operation time, a derived frame is used as it is, anything else raises. -/
def subscriptOp (ve : PyVal) (vi : PyVal) (d : DataFrame) : ExRes :=
  match ve with
  | .vSessionDF => subFrame d vi d
  | .vDF d0 => subFrame d0 vi d
  | _ => (.error .typeError, d)

/-- Zero-argument call: series.sum() over an integer column. -/
def callOp0 (vf : PyVal) (d : DataFrame) : ExRes :=
  match vf with
  | .vMethod .sum (.vSeries cs) =>
      match intsOf cs with
      | some ns => (.ok (.vInt (ns.foldr (fun a b => a + b) 0)), d)
      | none => (.error .typeError, d)
  | _ => (.error .typeError, d)

/-- One-argument call: frame.pop(label).  On the session frame the removal
mutates the session state; on a derived frame only the temporary copy is
affected, so the session state is unchanged. -/
def callOp1 (vf : PyVal) (va : PyVal) (d : DataFrame) : ExRes :=
  match vf with
  | .vMethod .pop .vSessionDF =>
      match va with
      | .vStr s =>
          match d.popCol s with
          | some p => (.ok (.vSeries p.1), p.2)
          | none => (.error (.keyError s), d)
      | _ => (.error .typeError, d)
  | .vMethod .pop (.vDF d0) =>
      match va with
      | .vStr s =>
          match d0.popCol s with
          | some p => (.ok (.vSeries p.1), d)
          | none => (.error (.keyError s), d)
      | _ => (.error .typeError, d)
  | _ => (.error .typeError, d)

/-- Equality comparison: elementwise against a series, or scalar equality. -/
def binEqOp (va : PyVal) (vb : PyVal) (d : DataFrame) : ExRes :=
  match va, vb with
  | .vSeries cs, _ =>
      match toCellV vb with
      | some c => (.ok (.vSeries (cs.map (fun x => .cBool (decide (x = c))))), d)
      | none => (.error .typeError, d)
  | _, .vSeries cs =>
      match toCellV va with
      | some c => (.ok (.vSeries (cs.map (fun x => .cBool (decide (x = c))))), d)
      | none => (.error .typeError, d)
  | _, _ =>
      match toCellV va, toCellV vb with
      | some a, some b => (.ok (.vBool (decide (a = b))), d)
      | _, _ => (.error .typeError, d)

/-- Ordering comparison: elementwise integer series against an integer, or
scalar integer and string ordering. -/
def binLtOp (va : PyVal) (vb : PyVal) (d : DataFrame) : ExRes :=
  match va, vb with
  | .vSeries cs, .vInt n =>
      match intsOf cs with
      | some ns => (.ok (.vSeries (ns.map (fun m => .cBool (decide (m < n))))), d)
      | none => (.error .typeError, d)
  | .vInt a, .vInt b => (.ok (.vBool (decide (a < b))), d)
  | .vStr a, .vStr b => (.ok (.vBool (decide (a < b))), d)
  | _, _ => (.error .typeError, d)

/-- Evaluation of one generated expression against the session dataframe:
the body of eval(python_code, ...) at line 210 of the source, restricted to
the fragment.  Operands evaluate left to right; exceptions propagate; the
session dataframe is threaded through as state. -/
def evalExpr : Expr → DataFrame → ExRes
  | .litInt n, d => (.ok (.vInt n), d)
  | .litStr s, d => (.ok (.vStr s), d)
  | .litBool b, d => (.ok (.vBool b), d)
  | .litNone, d => (.ok .vNone, d)
  | .name s, d => lookupName s d
  | .attr e f, d => bindE (evalExpr e d) (fun v d1 => attrOf v f d1)
  | .subscript e i, d =>
      bindE (evalExpr e d) (fun ve d1 =>
        bindE (evalExpr i d1) (fun vi d2 => subscriptOp ve vi d2))
  | .call0 f, d => bindE (evalExpr f d) (fun vf d1 => callOp0 vf d1)
  | .call1 f a, d =>
      bindE (evalExpr f d) (fun vf d1 =>
        bindE (evalExpr a d1) (fun va d2 => callOp1 vf va d2))
  | .binEq a b, d =>
      bindE (evalExpr a d) (fun va d1 =>
        bindE (evalExpr b d1) (fun vb d2 => binEqOp va vb d2))
  | .binLt a b, d =>
      bindE (evalExpr a d) (fun va d1 =>
        bindE (evalExpr b d1) (fun vb d2 => binLtOp va vb d2))

/-- True when the expression contains a reference to a name outside the
given list. -/
def refsOutside (allowed : List String) : Expr → Bool
  | .litInt _ => false
  | .litStr _ => false
  | .litBool _ => false
  | .litNone => false
  | .name s => !(allowed.contains s)
  | .attr e _ => refsOutside allowed e
  | .subscript e i => refsOutside allowed e || refsOutside allowed i
  | .call0 f => refsOutside allowed f
  | .call1 f a => refsOutside allowed f || refsOutside allowed a
  | .binEq a b => refsOutside allowed a || refsOutside allowed b
  | .binLt a b => refsOutside allowed a || refsOutside allowed b

/-- The names the eval call at lines 209-210 actually binds: df and pd in the
locals dict, __builtins__ (to None) in the globals dict. -/
def evalBindings : List String := ["df", "pd", "__builtins__"]

/-- True when the expression contains no access to the pop attribute, the
fragment's in-place mutator. -/
def popFree : Expr → Bool
  | .litInt _ => true
  | .litStr _ => true
  | .litBool _ => true
  | .litNone => true
  | .name _ => true
  | .attr e f => if f = "pop" then false else popFree e
  | .subscript e i => popFree e && popFree i
  | .call0 f => popFree f
  | .call1 f a => popFree f && popFree a
  | .binEq a b => popFree a && popFree b
  | .binLt a b => popFree a && popFree b

/-- The raised-exception observation on an evaluation outcome. -/
def isErr : Except EvalErr PyVal → Bool
  | .error _ => true
  | .ok _ => false

/-- A bound pop method whose receiver is the session frame: applying it is
the only state-mutating step of the fragment. -/
def isSessionPop : PyVal → Bool
  | .vMethod .pop .vSessionDF => true
  | _ => false

/-- isinstance(exec_result, pd.DataFrame) at line 212. -/
def isDFVal : PyVal → Bool
  | .vSessionDF => true
  | .vDF _ => true
  | _ => false

/-- The four rendering paths of lines 212-224: table with row count
(st.dataframe plus the rows-matched success note), the no-data-matched
notice, the single labeled answer, and the no-specific-result notice. -/
inductive RenderPath where
  | table (rowCount : Nat)
  | noMatch
  | answer
  | noSpecificResult
deriving DecidableEq

/-- The result classifier of lines 212-224.  A frame value renders as a
table with len(exec_result) rows when exec_result.empty is false, and as
the no-match notice when empty is true; a non-frame value renders as the
labeled answer unless it is None; None renders the no-specific-result
notice.  vSessionDF resolves against the post-evaluation session frame. -/
def classify (v : PyVal) (s : DataFrame) : RenderPath :=
  match v with
  | .vSessionDF => if s.isEmpty then .noMatch else .table s.rows.length
  | .vDF d0 => if d0.isEmpty then .noMatch else .table d0.rows.length
  | .vNone => .noSpecificResult
  | _ => .answer

/-- Modelled from the specification wording of section 4.4, for comparison
with classify: a tabular value with at least one row renders as a table
with the row count, a tabular value with zero rows renders the no-match
notice, a non-tabular non-none value renders the labeled answer, none
renders the no-specific-result notice. -/
def specRenderClaim (v : PyVal) (s : DataFrame) : RenderPath :=
  match v with
  | .vSessionDF => if 1 ≤ s.rows.length then .table s.rows.length else .noMatch
  | .vDF d0 => if 1 ≤ d0.rows.length then .table d0.rows.length else .noMatch
  | .vNone => .noSpecificResult
  | _ => .answer

/-- The amended rendering rules: a tabular value renders as a table with the
row count exactly when it has at least one row and at least one column;
a tabular value with zero rows or zero columns renders the no-match notice;
the non-tabular cases are unchanged. -/
def specRenderAmended (v : PyVal) (s : DataFrame) : RenderPath :=
  match v with
  | .vSessionDF =>
      if 1 ≤ s.rows.length ∧ 1 ≤ s.cols.length
      then .table s.rows.length else .noMatch
  | .vDF d0 =>
      if 1 ≤ d0.rows.length ∧ 1 ≤ d0.cols.length
      then .table d0.rows.length else .noMatch
  | .vNone => .noSpecificResult
  | _ => .answer

/-- The per-column schema entries of line 167: the list comprehension
building one quoted column name with its dtype per column, in column
order. -/
def schemaEntries (d : DataFrame) : List String :=
  d.cols.map (fun c => "\x27" ++ c.1 ++ "\x27 (" ++ dtypeRepr c.2 ++ ")")

/-- df_columns_info at lines 166-167: the comma-joined schema entries. -/
def dfColumnsInfo (d : DataFrame) : String :=
  String.intercalate ", " (schemaEntries d)

/-- The inner text of the first candidate part, as json.loads sees it at
line 58: either not JSON, or a JSON object whose python_code field is
present or absent. -/
inductive InnerText where
  | notJson
  | jsonObj (pythonCode : Option String)
deriving DecidableEq

/-- The envelope checks of lines 55-56: either the candidate, content or
parts structure is missing or falsy, or the first part carries a text. -/
inductive Envelope where
  | missing
  | firstPartText (t : InnerText)
deriving DecidableEq

/-- The HTTP response body as response.json() sees it at line 52. -/
inductive Body where
  | notJson
  | json (e : Envelope)
deriving DecidableEq

/-- One outcome of the POST at lines 46-50: either the request itself fails
(httpx.RequestError: connection, DNS, timeout) or a response with some
status arrives. -/
inductive HttpOutcome where
  | requestError
  | response (status : Nat) (body : Body)
deriving DecidableEq

/-- The distinct user-visible notices call_gemini_api can emit: the missing
envelope error of line 61, the transport error of lines 64-65, the JSON
parse error of line 68, and the catch-all unexpected error of line 71. -/
inductive ApiNotice where
  | noNotice
  | envelopeError
  | transportError
  | jsonDecodeError
  | unexpectedError
deriving DecidableEq

/-- What call_gemini_api hands back to its caller: the extracted python_code
field (or none) and the notice it displayed. -/
structure ApiResult where
  code : Option String
  notice : ApiNotice
deriving DecidableEq

/-- call_gemini_api (lines 44-72) as a function of the transport outcome.
raise_for_status raises httpx.HTTPStatusError for every non-2xx status;
that class subclasses httpx.HTTPError, not httpx.RequestError, so the
except httpx.RequestError clause does not catch it and the catch-all
except Exception clause reports the generic unexpected-error message.
A failing response.json() and a failing inner json.loads both raise
json.JSONDecodeError and share the notice of line 68. -/
def callGeminiApi : HttpOutcome → ApiResult
  | .requestError => ⟨none, .transportError⟩
  | .response status body =>
      if status / 100 = 2 then
        match body with
        | .notJson => ⟨none, .jsonDecodeError⟩
        | .json .missing => ⟨none, .envelopeError⟩
        | .json (.firstPartText .notJson) => ⟨none, .jsonDecodeError⟩
        | .json (.firstPartText (.jsonObj pc)) => ⟨pc, .noNotice⟩
      else ⟨none, .unexpectedError⟩

/-- The outcome the user sees from one submission: the empty-question
warning of line 233, the could-not-generate warning of line 231 (paired
with whatever notice the API call already displayed), the execution-error
notice of lines 227-229 with the offending code echoed, or a rendered
result. -/
inductive SubmitOutcome where
  | emptyQuestionWarning
  | noCodeWarning (api : ApiNotice)
  | evalErrorNotice (echoedCode : String) (err : EvalErr)
  | rendered (r : RenderPath)
deriving DecidableEq

/-- One submission, observed: the outcome plus how many times the schema
summary was computed, the oracle was called and eval was invoked, and the
session dataframe afterwards. -/
structure SubmitResult where
  outcome : SubmitOutcome
  schemaRuns : Nat
  oracleCalls : Nat
  evalRuns : Nat
  dfAfter : DataFrame
deriving DecidableEq

/-- Lines 206-231: the handling of the value call_gemini_api returned.
if python_code: is Python truthiness, so None and the empty string both
fall to the warning of line 231; otherwise eval runs (a parse failure is
the SyntaxError raised inside eval) and the result is classified.  The
parse parameter abstracts the Python parser inside eval. -/
def afterOracle (parse : String → Option Expr) (api : ApiResult)
    (d : DataFrame) : SubmitResult :=
  match api.code with
  | none => ⟨.noCodeWarning api.notice, 1, 1, 0, d⟩
  | some code =>
      if code = "" then ⟨.noCodeWarning api.notice, 1, 1, 0, d⟩
      else
        match parse code with
        | none => ⟨.evalErrorNotice code .syntaxError, 1, 1, 1, d⟩
        | some e =>
            match evalExpr e d with
            | (.error err, d2) => ⟨.evalErrorNotice code err, 1, 1, 1, d2⟩
            | (.ok v, d2) => ⟨.rendered (classify v d2), 1, 1, 1, d2⟩

/-- Lines 161-233: the Get Answer handler.  An empty question (falsy string)
is rejected at once with the warning of line 233 and nothing else runs;
otherwise the schema summary is built, the oracle is called exactly once
and its answer is processed. -/
def handleSubmit (parse : String → Option Expr) (q : String)
    (t : HttpOutcome) (d : DataFrame) : SubmitResult :=
  if q = "" then ⟨.emptyQuestionWarning, 0, 0, 0, d⟩
  else afterOracle parse (callGeminiApi t) d

/-- Outcome of the dataset load block at lines 138-149. -/
inductive LoadResult where
  | ok (d : DataFrame)
  | fileNotFound
  | readError
deriving DecidableEq

/-- The notices the load block emits: st.success at line 141, st.error at
lines 145 and 148. -/
inductive LoadNotice where
  | successNotice
  | errorNotice
deriving DecidableEq

def loadNotice : LoadResult → LoadNotice
  | .ok _ => .successNotice
  | .fileNotFound => .errorNotice
  | .readError => .errorNotice

/-- st.session_state.df after the load block: the loaded frame on success,
None (reset at lines 146 and 149) on failure. -/
def dfAfterLoad : LoadResult → Option DataFrame
  | .ok d => some d
  | .fileNotFound => none
  | .readError => none

/-- The session controller states of the specification, read off the code:
the session is dataset-ready exactly when st.session_state.df is not None. -/
inductive SessionState where
  | noDatasetLoaded
  | datasetReady (d : DataFrame)
deriving DecidableEq

def stateAfterLoad (r : LoadResult) : SessionState :=
  match dfAfterLoad r with
  | some d => .datasetReady d
  | none => .noDatasetLoaded

/-- The guard at line 154: the question input and button exist only when
st.session_state.df is not None. -/
def queryInterfaceShown : SessionState → Bool
  | .noDatasetLoaded => false
  | .datasetReady _ => true

/-- After a submission the session dataframe is still loaded, so the next
rerun shows the query interface again. -/
def stateAfterSubmit (r : SubmitResult) : SessionState :=
  .datasetReady r.dfAfter

/-- Observation on an evaluation outcome: it either raised, or returned a
value that is not a bound session-frame pop method. -/
def okNotPop : Except EvalErr PyVal → Bool
  | .error _ => true
  | .ok v => !(isSessionPop v)

end GoldLoan

namespace GoldLoan

theorem bindE_error (e : EvalErr) (d : DataFrame) (k : PyVal → DataFrame → ExRes) :
    bindE (.error e, d) k = (.error e, d) := rfl

theorem bindE_ok (v : PyVal) (d : DataFrame) (k : PyVal → DataFrame → ExRes) :
    bindE (.ok v, d) k = k v d := rfl

/-- C1 counterexample: the expression consisting of the bare name
__builtins__ references a name other than df and pd, yet evaluation
returns the value None instead of raising: eval resolves __builtins__
through the globals dict, which binds it to None. -/
theorem c1_counterexample :
    refsOutside ["df", "pd"] (.name "__builtins__") = true ∧
    evalExpr (.name "__builtins__") ⟨[], []⟩ =
      (.ok .vNone, (⟨[], []⟩ : DataFrame)) := by
  exact ⟨by decide, rfl⟩

/-- C3 counterexample: the expression df.pop(\x27A\x27) evaluates
successfully to the popped column and leaves the session dataframe with
the column A removed: the dataframe after evaluation differs from the
dataframe before. -/
theorem c3_counterexample :
    (evalExpr (.call1 (.attr (.name "df") "pop") (.litStr "A"))
        ⟨[("A", DType.int64), ("B", DType.int64)], [[.cInt 1, .cInt 2]]⟩).2 ≠
      (⟨[("A", DType.int64), ("B", DType.int64)], [[.cInt 1, .cInt 2]]⟩ : DataFrame) ∧
    evalExpr (.call1 (.attr (.name "df") "pop") (.litStr "A"))
        ⟨[("A", DType.int64), ("B", DType.int64)], [[.cInt 1, .cInt 2]]⟩ =
      (.ok (.vSeries [.cInt 1]), (⟨[("B", DType.int64)], [[.cInt 2]]⟩ : DataFrame)) := by
  exact ⟨by decide, rfl⟩

/-- C2 counterexample: when the oracle transport returns HTTP 500,
call_gemini_api displays the generic unexpected-error notice, which is
distinct from the transport-failure notice the claim requires. -/
theorem c2_counterexample :
    callGeminiApi (.response 500 .notJson) = ⟨none, .unexpectedError⟩ ∧
    ApiNotice.unexpectedError ≠ ApiNotice.transportError := by
  exact ⟨rfl, by decide⟩

/-- C2 (amended): a non-2xx HTTP status from the oracle transport is
reported with the generic unexpected-error notice (raise_for_status raises
httpx.HTTPStatusError, which the except httpx.RequestError clause does not
catch), with no retry (exactly one oracle call), no evaluation, none
returned, the dataset unchanged and the query interface still usable. -/
theorem c2_amended (status : Nat) (body : Body) (parse : String → Option Expr)
    (q : String) (d : DataFrame) (hq : q ≠ "") (hs : status / 100 ≠ 2) :
    handleSubmit parse q (.response status body) d =
      ⟨.noCodeWarning .unexpectedError, 1, 1, 0, d⟩ ∧
    queryInterfaceShown
      (stateAfterSubmit (handleSubmit parse q (.response status body) d)) = true := by
  constructor
  · simp [handleSubmit, callGeminiApi, afterOracle, hq, hs]
  · simp [stateAfterSubmit, queryInterfaceShown]

/-- C2 witness: the amended theorem applied at HTTP status 500. -/
theorem c2_witness :
    handleSubmit (fun _ => none) "q" (.response 500 .notJson) ⟨[], []⟩ =
      ⟨.noCodeWarning .unexpectedError, 1, 1, 0, ⟨[], []⟩⟩ ∧
    queryInterfaceShown (stateAfterSubmit (handleSubmit (fun _ => none) "q"
      (.response 500 .notJson) ⟨[], []⟩)) = true :=
  c2_amended 500 .notJson (fun _ => none) "q" ⟨[], []⟩ (by decide) (by decide)

/-- C4 counterexample: a tabular value with one row but zero columns is a
tabular result with at least one row, yet the classifier renders the
no-match notice rather than a table, because pandas DataFrame.empty is
true whenever any axis has length zero. -/
theorem c4_counterexample :
    classify (.vDF ⟨[], [[]]⟩) ⟨[], []⟩ = .noMatch ∧
    (DataFrame.mk [] [[]]).rows.length = 1 ∧
    specRenderClaim (.vDF ⟨[], [[]]⟩) ⟨[], []⟩ = .table 1 := by
  exact ⟨rfl, rfl, rfl⟩

/-- C4 (amended): the classifier is a total function equal to the amended
rendering rules, applied in priority order: a tabular value with at least
one row and at least one column renders as a table with its row count; a
tabular value with zero rows or zero columns renders the no-match notice;
a non-tabular non-none value renders as the single labeled answer; none
renders the distinct no-specific-result notice.  There is no fifth path. -/
theorem c4_amended (v : PyVal) (s : DataFrame) :
    classify v s = specRenderAmended v s := by
  have h : ∀ (t : DataFrame) (n : Nat),
      (if t.isEmpty then RenderPath.noMatch else .table n) =
      (if 1 ≤ t.rows.length ∧ 1 ≤ t.cols.length then .table n else .noMatch) := by
    intro t n
    by_cases h1 : t.rows.length = 0
    · simp [DataFrame.isEmpty, h1]
    · by_cases h2 : t.cols.length = 0
      · simp [DataFrame.isEmpty, h1, h2]
      · have e1 : 1 ≤ t.rows.length := Nat.one_le_iff_ne_zero.mpr h1
        have e2 : 1 ≤ t.cols.length := Nat.one_le_iff_ne_zero.mpr h2
        simp [DataFrame.isEmpty, h1, h2, e1, e2]
  cases v
  case vSessionDF => exact h s s.rows.length
  case vDF d0 => exact h d0 d0.rows.length
  all_goals rfl

/-- C5: evaluation is deterministic: two evaluations of the same expression
against the same dataset yield the same outcome (value and post-state). -/
theorem c5_deterministic (e : Expr) (d : DataFrame) (r1 r2 : ExRes)
    (h1 : evalExpr e d = r1) (h2 : evalExpr e d = r2) : r1 = r2 := by
  rw [← h1, ← h2]

/-- C5 witness: the determinism theorem applied to the expression df on a
concrete dataset. -/
theorem c5_witness :
    ((Except.ok PyVal.vSessionDF, (⟨[], []⟩ : DataFrame)) : ExRes) =
    ((Except.ok PyVal.vSessionDF, (⟨[], []⟩ : DataFrame)) : ExRes) :=
  c5_deterministic (.name "df") ⟨[], []⟩ _ _ rfl rfl

/-- C6: if the dataset load fails the session stays in the no-dataset state
with an error notice and the query interface is not shown; the interface
is shown only when the load succeeded. -/
theorem c6_load_gate (r : LoadResult) :
    ((∀ d, r ≠ .ok d) → stateAfterLoad r = .noDatasetLoaded ∧
      queryInterfaceShown (stateAfterLoad r) = false ∧
      loadNotice r = .errorNotice) ∧
    (queryInterfaceShown (stateAfterLoad r) = true → ∃ d, r = .ok d) := by
  cases r with
  | ok d => exact ⟨fun h => absurd rfl (h d), fun _ => ⟨d, rfl⟩⟩
  | fileNotFound =>
      refine ⟨fun _ => ⟨rfl, rfl, rfl⟩, fun h => ?_⟩
      simp [stateAfterLoad, dfAfterLoad, queryInterfaceShown] at h
  | readError =>
      refine ⟨fun _ => ⟨rfl, rfl, rfl⟩, fun h => ?_⟩
      simp [stateAfterLoad, dfAfterLoad, queryInterfaceShown] at h

/-- C6 witness: the load-gate theorem applied to a missing file. -/
theorem c6_witness :
    stateAfterLoad .fileNotFound = .noDatasetLoaded ∧
    queryInterfaceShown (stateAfterLoad .fileNotFound) = false ∧
    loadNotice .fileNotFound = .errorNotice :=
  (c6_load_gate .fileNotFound).1 (fun _ h => nomatch h)

/-- C7: submitting an empty question is rejected synchronously with the
enter-a-question warning; the schema summary is not computed, the oracle
is not called, the evaluator does not run and the dataset is untouched. -/
theorem c7_empty_question (parse : String → Option Expr) (t : HttpOutcome)
    (d : DataFrame) :
    handleSubmit parse "" t d = ⟨.emptyQuestionWarning, 0, 0, 0, d⟩ := by
  simp [handleSubmit]

/-- C8: the schema summary lists one entry per dataset column, in dataset
column order, pairing the quoted column name with its dtype, and the
summary string is a deterministic function of the dataset. -/
theorem c8_schema (d : DataFrame) (i : Nat) :
    (schemaEntries d).length = d.cols.length ∧
    (schemaEntries d)[i]? = (d.cols[i]?).map
      (fun c => "\x27" ++ c.1 ++ "\x27 (" ++ dtypeRepr c.2 ++ ")") ∧
    (∀ d2, d = d2 → dfColumnsInfo d = dfColumnsInfo d2) := by
  refine ⟨?_, ?_, ?_⟩
  · simp [schemaEntries]
  · simp [schemaEntries]
  · intro d2 h
    rw [h]

/-- C8 witness: the schema theorem applied to a one-column dataset. -/
theorem c8_witness :
    dfColumnsInfo ⟨[("A", DType.int64)], []⟩ =
      dfColumnsInfo ⟨[("A", DType.int64)], []⟩ ∧
    (schemaEntries ⟨[("A", DType.int64)], []⟩).length = 1 := by
  refine ⟨(c8_schema ⟨[("A", DType.int64)], []⟩ 0).2.2 _ rfl, ?_⟩
  rw [(c8_schema ⟨[("A", DType.int64)], []⟩ 0).1]
  rfl

/-- C9: an artifact whose extracted expression string is empty is handled
exactly like an absent artifact: same could-not-generate warning, the
evaluator never runs, and nothing is rendered; the last conjunct shows a
well-formed oracle response that yields the empty expression string. -/
theorem c9_empty_code (parse : String → Option Expr) (n : ApiNotice)
    (d : DataFrame) :
    afterOracle parse ⟨some "", n⟩ d = afterOracle parse ⟨none, n⟩ d ∧
    (afterOracle parse ⟨some "", n⟩ d).outcome = .noCodeWarning n ∧
    (afterOracle parse ⟨some "", n⟩ d).evalRuns = 0 ∧
    callGeminiApi (.response 200 (.json (.firstPartText (.jsonObj (some ""))))) =
      ⟨some "", .noNotice⟩ := by
  refine ⟨?_, ?_, ?_, ?_⟩ <;> simp [afterOracle, callGeminiApi]

/-- C10: the no-specific-result notice is selected exactly for the value
None; every non-tabular value that is not None, including falsy scalars,
renders as the single labeled answer. -/
theorem c10_none_only (v : PyVal) (s : DataFrame) :
    (classify v s = .noSpecificResult ↔ v = .vNone) ∧
    (isDFVal v = false → v ≠ .vNone → classify v s = .answer) := by
  cases v <;> simp [classify, isDFVal] <;> split <;> simp

/-- C10 witness: the falsy scalars 0, False and the empty string all render
as the labeled answer. -/
theorem c10_witness :
    classify (.vInt 0) ⟨[], []⟩ = .answer ∧
    classify (.vBool false) ⟨[], []⟩ = .answer ∧
    classify (.vStr "") ⟨[], []⟩ = .answer :=
  ⟨(c10_none_only (.vInt 0) ⟨[], []⟩).2 (by decide) (by decide),
   (c10_none_only (.vBool false) ⟨[], []⟩).2 (by decide) (by decide),
   (c10_none_only (.vStr "") ⟨[], []⟩).2 (by decide) (by decide)⟩

end GoldLoan

namespace GoldLoan

theorem lookupName_frame (s : String) (d : DataFrame) :
    (lookupName s d).2 = d ∧ okNotPop (lookupName s d).1 = true := by
  unfold lookupName
  by_cases h1 : s = "df"
  · rw [if_pos h1]; exact ⟨rfl, rfl⟩
  rw [if_neg h1]
  by_cases h2 : s = "pd"
  · rw [if_pos h2]; exact ⟨rfl, rfl⟩
  rw [if_neg h2]
  by_cases h3 : s = "__builtins__"
  · rw [if_pos h3]; exact ⟨rfl, rfl⟩
  · rw [if_neg h3]; exact ⟨rfl, rfl⟩

theorem attrOf_frame (v : PyVal) (f : String) (d : DataFrame) (hf : f ≠ "pop") :
    (attrOf v f d).2 = d ∧ okNotPop (attrOf v f d).1 = true := by
  cases v with
  | vSessionDF => simp [attrOf, hf, okNotPop, isSessionPop]
  | vDF d0 => simp [attrOf, hf, okNotPop, isSessionPop]
  | vSeries cs =>
      by_cases hs : f = "sum" <;> simp [attrOf, hs, okNotPop, isSessionPop]
  | vNone => exact ⟨rfl, rfl⟩
  | vInt n => exact ⟨rfl, rfl⟩
  | vStr s => exact ⟨rfl, rfl⟩
  | vBool b => exact ⟨rfl, rfl⟩
  | vPd => exact ⟨rfl, rfl⟩
  | vMethod m recv => exact ⟨rfl, rfl⟩

theorem subFrame_frame (fr : DataFrame) (vi : PyVal) (d : DataFrame) :
    (subFrame fr vi d).2 = d ∧ okNotPop (subFrame fr vi d).1 = true := by
  cases vi with
  | vStr s =>
      rcases h : fr.colIdx s with _ | j <;>
        simp [subFrame, h, okNotPop, isSessionPop]
  | vSeries cs =>
      rcases h : asBools cs with _ | bs
      · simp [subFrame, h, okNotPop, isSessionPop]
      · by_cases hl : bs.length = fr.rows.length <;>
          simp [subFrame, h, hl, okNotPop, isSessionPop]
  | vNone => exact ⟨rfl, rfl⟩
  | vInt n => exact ⟨rfl, rfl⟩
  | vBool b => exact ⟨rfl, rfl⟩
  | vPd => exact ⟨rfl, rfl⟩
  | vSessionDF => exact ⟨rfl, rfl⟩
  | vDF d0 => exact ⟨rfl, rfl⟩
  | vMethod m recv => exact ⟨rfl, rfl⟩

theorem subscriptOp_frame (ve vi : PyVal) (d : DataFrame) :
    (subscriptOp ve vi d).2 = d ∧ okNotPop (subscriptOp ve vi d).1 = true := by
  cases ve with
  | vSessionDF => exact subFrame_frame d vi d
  | vDF d0 => exact subFrame_frame d0 vi d
  | vNone => exact ⟨rfl, rfl⟩
  | vInt n => exact ⟨rfl, rfl⟩
  | vStr s => exact ⟨rfl, rfl⟩
  | vBool b => exact ⟨rfl, rfl⟩
  | vPd => exact ⟨rfl, rfl⟩
  | vSeries cs => exact ⟨rfl, rfl⟩
  | vMethod m recv => exact ⟨rfl, rfl⟩

theorem callOp0_frame (vf : PyVal) (d : DataFrame) :
    (callOp0 vf d).2 = d ∧ okNotPop (callOp0 vf d).1 = true := by
  cases vf with
  | vMethod m recv =>
      cases m with
      | pop => cases recv <;> exact ⟨rfl, rfl⟩
      | sum =>
          cases recv with
          | vSeries cs =>
              rcases h : intsOf cs with _ | ns <;>
                simp [callOp0, h, okNotPop, isSessionPop]
          | vNone => exact ⟨rfl, rfl⟩
          | vInt n => exact ⟨rfl, rfl⟩
          | vStr s => exact ⟨rfl, rfl⟩
          | vBool b => exact ⟨rfl, rfl⟩
          | vPd => exact ⟨rfl, rfl⟩
          | vSessionDF => exact ⟨rfl, rfl⟩
          | vDF d0 => exact ⟨rfl, rfl⟩
          | vMethod m2 r2 => exact ⟨rfl, rfl⟩
  | vNone => exact ⟨rfl, rfl⟩
  | vInt n => exact ⟨rfl, rfl⟩
  | vStr s => exact ⟨rfl, rfl⟩
  | vBool b => exact ⟨rfl, rfl⟩
  | vPd => exact ⟨rfl, rfl⟩
  | vSessionDF => exact ⟨rfl, rfl⟩
  | vDF d0 => exact ⟨rfl, rfl⟩
  | vSeries cs => exact ⟨rfl, rfl⟩

theorem callOp1_frame (vf va : PyVal) (d : DataFrame)
    (h : isSessionPop vf = false) :
    (callOp1 vf va d).2 = d ∧ okNotPop (callOp1 vf va d).1 = true := by
  cases vf with
  | vMethod m recv =>
      cases m with
      | sum => cases recv <;> exact ⟨rfl, rfl⟩
      | pop =>
          cases recv with
          | vSessionDF => simp [isSessionPop] at h
          | vDF d0 =>
              cases va with
              | vStr s =>
                  rcases hp : d0.popCol s with _ | p <;>
                    simp [callOp1, hp, okNotPop, isSessionPop]
              | vNone => exact ⟨rfl, rfl⟩
              | vInt n => exact ⟨rfl, rfl⟩
              | vBool b => exact ⟨rfl, rfl⟩
              | vPd => exact ⟨rfl, rfl⟩
              | vSessionDF => exact ⟨rfl, rfl⟩
              | vDF d1 => exact ⟨rfl, rfl⟩
              | vSeries cs => exact ⟨rfl, rfl⟩
              | vMethod m2 r2 => exact ⟨rfl, rfl⟩
          | vNone => exact ⟨rfl, rfl⟩
          | vInt n => exact ⟨rfl, rfl⟩
          | vStr s => exact ⟨rfl, rfl⟩
          | vBool b => exact ⟨rfl, rfl⟩
          | vPd => exact ⟨rfl, rfl⟩
          | vSeries cs => exact ⟨rfl, rfl⟩
          | vMethod m2 r2 => exact ⟨rfl, rfl⟩
  | vNone => exact ⟨rfl, rfl⟩
  | vInt n => exact ⟨rfl, rfl⟩
  | vStr s => exact ⟨rfl, rfl⟩
  | vBool b => exact ⟨rfl, rfl⟩
  | vPd => exact ⟨rfl, rfl⟩
  | vSessionDF => exact ⟨rfl, rfl⟩
  | vDF d0 => exact ⟨rfl, rfl⟩
  | vSeries cs => exact ⟨rfl, rfl⟩

theorem binEqOp_frame (va vb : PyVal) (d : DataFrame) :
    (binEqOp va vb d).2 = d ∧ okNotPop (binEqOp va vb d).1 = true := by
  cases va <;> cases vb <;> exact ⟨rfl, rfl⟩

theorem binLtOp_frame (va vb : PyVal) (d : DataFrame) :
    (binLtOp va vb d).2 = d ∧ okNotPop (binLtOp va vb d).1 = true := by
  cases va <;> cases vb <;>
    first
    | exact ⟨rfl, rfl⟩
    | (rename_i cs n
       rcases h : intsOf cs with _ | ns <;>
         simp [binLtOp, h, okNotPop, isSessionPop])

theorem popFree_strong (e : Expr) : ∀ d : DataFrame, popFree e = true →
    (evalExpr e d).2 = d ∧ okNotPop (evalExpr e d).1 = true := by
  induction e with
  | litInt n => intro d _; exact ⟨rfl, rfl⟩
  | litStr s => intro d _; exact ⟨rfl, rfl⟩
  | litBool b => intro d _; exact ⟨rfl, rfl⟩
  | litNone => intro d _; exact ⟨rfl, rfl⟩
  | name s => intro d _; exact lookupName_frame s d
  | attr e f ih =>
      intro d h
      simp only [popFree] at h
      by_cases hf : f = "pop"
      · rw [if_pos hf] at h; exact absurd h (by decide)
      · rw [if_neg hf] at h
        rcases he : evalExpr e d with ⟨res, d1⟩
        have hh := ih d h
        rw [he] at hh
        cases res with
        | error err =>
            simp only [evalExpr, he, bindE_error]
            exact ⟨hh.1, rfl⟩
        | ok v =>
            simp only [evalExpr, he, bindE_ok]
            have ha := attrOf_frame v f d1 hf
            exact ⟨ha.1.trans hh.1, ha.2⟩
  | subscript e i ihe ihi =>
      intro d h
      simp only [popFree, Bool.and_eq_true] at h
      rcases he : evalExpr e d with ⟨res, d1⟩
      have hh := ihe d h.1
      rw [he] at hh
      cases res with
      | error err =>
          simp only [evalExpr, he, bindE_error]
          exact ⟨hh.1, rfl⟩
      | ok ve =>
          rcases hi : evalExpr i d1 with ⟨res2, d2⟩
          have hh2 := ihi d1 h.2
          rw [hi] at hh2
          cases res2 with
          | error err2 =>
              simp only [evalExpr, he, bindE_ok, hi, bindE_error]
              exact ⟨hh2.1.trans hh.1, rfl⟩
          | ok vi2 =>
              simp only [evalExpr, he, bindE_ok, hi]
              have hs := subscriptOp_frame ve vi2 d2
              exact ⟨hs.1.trans (hh2.1.trans hh.1), hs.2⟩
  | call0 f ihf =>
      intro d h
      simp only [popFree] at h
      rcases he : evalExpr f d with ⟨res, d1⟩
      have hh := ihf d h
      rw [he] at hh
      cases res with
      | error err =>
          simp only [evalExpr, he, bindE_error]
          exact ⟨hh.1, rfl⟩
      | ok v =>
          simp only [evalExpr, he, bindE_ok]
          have hc := callOp0_frame v d1
          exact ⟨hc.1.trans hh.1, hc.2⟩
  | call1 f a ihf iha =>
      intro d h
      simp only [popFree, Bool.and_eq_true] at h
      rcases he : evalExpr f d with ⟨res, d1⟩
      have hh := ihf d h.1
      rw [he] at hh
      cases res with
      | error err =>
          simp only [evalExpr, he, bindE_error]
          exact ⟨hh.1, rfl⟩
      | ok vf =>
          rcases ha : evalExpr a d1 with ⟨res2, d2⟩
          have hh2 := iha d1 h.2
          rw [ha] at hh2
          cases res2 with
          | error err2 =>
              simp only [evalExpr, he, bindE_ok, ha, bindE_error]
              exact ⟨hh2.1.trans hh.1, rfl⟩
          | ok va2 =>
              simp only [evalExpr, he, bindE_ok, ha]
              have hv : isSessionPop vf = false := by
                have hp := hh.2
                simp only [okNotPop, Bool.not_eq_true'] at hp
                exact hp
              have hc := callOp1_frame vf va2 d2 hv
              exact ⟨hc.1.trans (hh2.1.trans hh.1), hc.2⟩
  | binEq a b iha ihb =>
      intro d h
      simp only [popFree, Bool.and_eq_true] at h
      rcases hea : evalExpr a d with ⟨res, d1⟩
      have hh := iha d h.1
      rw [hea] at hh
      cases res with
      | error err =>
          simp only [evalExpr, hea, bindE_error]
          exact ⟨hh.1, rfl⟩
      | ok va =>
          rcases heb : evalExpr b d1 with ⟨res2, d2⟩
          have hh2 := ihb d1 h.2
          rw [heb] at hh2
          cases res2 with
          | error err2 =>
              simp only [evalExpr, hea, bindE_ok, heb, bindE_error]
              exact ⟨hh2.1.trans hh.1, rfl⟩
          | ok vb =>
              simp only [evalExpr, hea, bindE_ok, heb]
              have hc := binEqOp_frame va vb d2
              exact ⟨hc.1.trans (hh2.1.trans hh.1), hc.2⟩
  | binLt a b iha ihb =>
      intro d h
      simp only [popFree, Bool.and_eq_true] at h
      rcases hea : evalExpr a d with ⟨res, d1⟩
      have hh := iha d h.1
      rw [hea] at hh
      cases res with
      | error err =>
          simp only [evalExpr, hea, bindE_error]
          exact ⟨hh.1, rfl⟩
      | ok va =>
          rcases heb : evalExpr b d1 with ⟨res2, d2⟩
          have hh2 := ihb d1 h.2
          rw [heb] at hh2
          cases res2 with
          | error err2 =>
              simp only [evalExpr, hea, bindE_ok, heb, bindE_error]
              exact ⟨hh2.1.trans hh.1, rfl⟩
          | ok vb =>
              simp only [evalExpr, hea, bindE_ok, heb]
              have hc := binLtOp_frame va vb d2
              exact ⟨hc.1.trans (hh2.1.trans hh.1), hc.2⟩

/-- C3 (amended): every expression that invokes no in-place mutating frame
operation (no pop attribute access) leaves the session dataframe unchanged,
whether evaluation succeeds or raises.  The unamended universal claim fails
because expressions such as df.pop remove a column from the shared session
object. -/
theorem c3_amended (e : Expr) (d : DataFrame) (h : popFree e = true) :
    (evalExpr e d).2 = d :=
  (popFree_strong e d h).1

/-- C3 witness: the amended theorem applied to the pop-free expression
df selecting column A on a concrete dataset. -/
theorem c3_witness :
    (evalExpr (.subscript (.name "df") (.litStr "A"))
      ⟨[("A", DType.int64)], [[.cInt 5]]⟩).2 =
    (⟨[("A", DType.int64)], [[.cInt 5]]⟩ : DataFrame) :=
  c3_amended (.subscript (.name "df") (.litStr "A"))
    ⟨[("A", DType.int64)], [[.cInt 5]]⟩ (by decide)

/-- C1 (amended): evaluation raises (and returns no value) for every
expression that references any name outside the three names the eval call
actually binds: df and pd in the locals dict and __builtins__ (bound to
None) in the globals dict.  The unamended claim fails only on the name
__builtins__, which resolves silently to None. -/
theorem c1_amended (e : Expr) : ∀ d : DataFrame,
    refsOutside evalBindings e = true → isErr (evalExpr e d).1 = true := by
  induction e with
  | litInt n => intro d h; exact Bool.noConfusion h
  | litStr s => intro d h; exact Bool.noConfusion h
  | litBool b => intro d h; exact Bool.noConfusion h
  | litNone => intro d h; exact Bool.noConfusion h
  | name s =>
      intro d h
      have h1 : s ≠ "df" := by
        intro hs; subst hs; exact absurd h (by decide)
      have h2 : s ≠ "pd" := by
        intro hs; subst hs; exact absurd h (by decide)
      have h3 : s ≠ "__builtins__" := by
        intro hs; subst hs; exact absurd h (by decide)
      simp only [evalExpr, lookupName]
      rw [if_neg h1, if_neg h2, if_neg h3]
      rfl
  | attr e f ih =>
      intro d h
      simp only [refsOutside] at h
      rcases he : evalExpr e d with ⟨res, d1⟩
      have hh := ih d h
      rw [he] at hh
      cases res with
      | error err =>
          simp only [evalExpr, he, bindE_error]
          rfl
      | ok v => simp [isErr] at hh
  | subscript e i ihe ihi =>
      intro d h
      simp only [refsOutside, Bool.or_eq_true] at h
      rcases he : evalExpr e d with ⟨res, d1⟩
      cases res with
      | error err =>
          simp only [evalExpr, he, bindE_error]
          rfl
      | ok ve =>
          rcases h with h | h
          · have hh := ihe d h; rw [he] at hh; simp [isErr] at hh
          · rcases hi : evalExpr i d1 with ⟨res2, d2⟩
            have hh := ihi d1 h
            rw [hi] at hh
            cases res2 with
            | error err2 =>
                simp only [evalExpr, he, bindE_ok, hi, bindE_error]
                rfl
            | ok vi2 => simp [isErr] at hh
  | call0 f ihf =>
      intro d h
      simp only [refsOutside] at h
      rcases he : evalExpr f d with ⟨res, d1⟩
      have hh := ihf d h
      rw [he] at hh
      cases res with
      | error err =>
          simp only [evalExpr, he, bindE_error]
          rfl
      | ok v => simp [isErr] at hh
  | call1 f a ihf iha =>
      intro d h
      simp only [refsOutside, Bool.or_eq_true] at h
      rcases he : evalExpr f d with ⟨res, d1⟩
      cases res with
      | error err =>
          simp only [evalExpr, he, bindE_error]
          rfl
      | ok vf =>
          rcases h with h | h
          · have hh := ihf d h; rw [he] at hh; simp [isErr] at hh
          · rcases ha : evalExpr a d1 with ⟨res2, d2⟩
            have hh := iha d1 h
            rw [ha] at hh
            cases res2 with
            | error err2 =>
                simp only [evalExpr, he, bindE_ok, ha, bindE_error]
                rfl
            | ok va2 => simp [isErr] at hh
  | binEq a b iha ihb =>
      intro d h
      simp only [refsOutside, Bool.or_eq_true] at h
      rcases hea : evalExpr a d with ⟨res, d1⟩
      cases res with
      | error err =>
          simp only [evalExpr, hea, bindE_error]
          rfl
      | ok va =>
          rcases h with h | h
          · have hh := iha d h; rw [hea] at hh; simp [isErr] at hh
          · rcases heb : evalExpr b d1 with ⟨res2, d2⟩
            have hh := ihb d1 h
            rw [heb] at hh
            cases res2 with
            | error err2 =>
                simp only [evalExpr, hea, bindE_ok, heb, bindE_error]
                rfl
            | ok vb => simp [isErr] at hh
  | binLt a b iha ihb =>
      intro d h
      simp only [refsOutside, Bool.or_eq_true] at h
      rcases hea : evalExpr a d with ⟨res, d1⟩
      cases res with
      | error err =>
          simp only [evalExpr, hea, bindE_error]
          rfl
      | ok va =>
          rcases h with h | h
          · have hh := iha d h; rw [hea] at hh; simp [isErr] at hh
          · rcases heb : evalExpr b d1 with ⟨res2, d2⟩
            have hh := ihb d1 h
            rw [heb] at hh
            cases res2 with
            | error err2 =>
                simp only [evalExpr, hea, bindE_ok, heb, bindE_error]
                rfl
            | ok vb => simp [isErr] at hh

/-- C1 witness: referencing the unbound name os raises. -/
theorem c1_witness :
    isErr (evalExpr (.name "os") ⟨[], []⟩).1 = true :=
  c1_amended (.name "os") ⟨[], []⟩ (by decide)

end GoldLoan
